import Mathlib

/-!
Shallow embedding of the Ollama chat-completion adapter
(`autogen_ext/models/ollama/_ollama_client.py`): name validation and
normalization, message translation, tool-schema conversion, vision-token
estimation, response-format resolution, and the non-streaming / streaming
orchestrators with their usage accounting.  Definitions mirror the Python
source; theorems settle the specification claims about it.
-/

namespace OllamaClient

/-- Character class of the pattern `[a-zA-Z0-9_-]` used by both
`normalize_name` and `assert_valid_name` in the source. -/
def is_name_char (c : Char) : Bool :=
  ('a' ≤ c && c ≤ 'z') || ('A' ≤ c && c ≤ 'Z') || ('0' ≤ c && c ≤ '9') || c = '_' || c = '-'

/-- Source `normalize_name`: `re.sub(r"[^a-zA-Z0-9_-]", "_", name)[:64]` —
every character outside the class is replaced by an underscore, then the
result is truncated to 64 characters. -/
def normalize_name (name : String) : String :=
  String.mk (((name.data.map (fun c => if is_name_char c then c else '_'))).take 64)

/-- Python semantics of `re.match(r"^[a-zA-Z0-9_-]+$", s)`: the match
succeeds when the whole string is one or more class characters, or — a
quirk of the `$` anchor in Python, which also matches just before a
newline that ends the string — when the string is one or more class
characters followed by a single trailing newline. -/
def py_name_match (s : List Char) : Bool :=
  (!s.isEmpty && s.all is_name_char) ||
  (match s.getLast? with
   | some c =>
       c = '\n' && !s.dropLast.isEmpty && s.dropLast.all is_name_char
   | none => false)

/-- Source `assert_valid_name`: raises ValueError when the regex match
fails or the length exceeds 64; otherwise returns the name unchanged. -/
def assert_valid_name (name : String) : Except String String :=
  if !py_name_match name.data then
    .error ("Invalid name: " ++ name ++ ". Only letters, numbers, _ and - are allowed.")
  else if name.data.length > 64 then
    .error ("Invalid name: " ++ name ++ ". Name must be less than 64 characters.")
  else
    .ok name

/-- The specification pattern `[A-Za-z0-9_-]{1,64}` as a full-string
match: non-empty, every character in the class, at most 64 characters.
Stated from the spec wording, to compare against `assert_valid_name`. -/
def name_matches_spec_pattern (s : String) : Bool :=
  !s.data.isEmpty && s.data.all is_name_char && s.data.length ≤ 64

/-- Decidable equality for `Except`, so that concrete runs of the
fallible operations can be settled by `decide`. -/
instance {ε α : Type} [DecidableEq ε] [DecidableEq α] : DecidableEq (Except ε α) :=
  fun x y =>
    match x, y with
    | .ok a, .ok b =>
        if h : a = b then isTrue (by rw [h]) else isFalse (fun hc => h (Except.ok.inj hc))
    | .error a, .error b =>
        if h : a = b then isTrue (by rw [h]) else isFalse (fun hc => h (Except.error.inj hc))
    | .ok _, .error _ => isFalse (fun hc => Except.noConfusion hc)
    | .error _, .ok _ => isFalse (fun hc => Except.noConfusion hc)

/-- `RequestUsage`: prompt and completion token counts. -/
structure RequestUsage where
  prompt_tokens : Nat
  completion_tokens : Nat
deriving DecidableEq, Repr

/-- Source `_add_usage`: componentwise sum of two usages. -/
def add_usage (usage1 usage2 : RequestUsage) : RequestUsage :=
  { prompt_tokens := usage1.prompt_tokens + usage2.prompt_tokens,
    completion_tokens := usage1.completion_tokens + usage2.completion_tokens }

/-- Backend tool-call record (`Message.ToolCall`): a function name and its
arguments payload.  The arguments dictionary is carried as an opaque
serialized string. -/
structure OToolCall where
  name : String
  arguments : String
deriving DecidableEq, Repr

/-- Backend-native message (`ollama.Message`): role, optional text content,
optional image list (each image carried as its base64 payload string),
optional tool-call list. -/
structure OMessage where
  role : String
  content : Option String := none
  images : Option (List String) := none
  tool_calls : Option (List OToolCall) := none
deriving DecidableEq, Repr

/-- A part of a multi-part user content: text or an image (identified by
its base64 payload, as produced by `part.to_base64()`). -/
inductive UserContentPart where
  | text (s : String)
  | image (b64 : String)
deriving DecidableEq, Repr

/-- Content of a generic User message: plain text or an ordered list of
text/image parts. -/
inductive UserContent where
  | text (s : String)
  | parts (ps : List UserContentPart)
deriving DecidableEq, Repr

/-- The part loop of `user_message_to_ollama`, accumulator kept in reverse
order.  A text part always appends a fresh user message; an image part
starts a new image-only message when no message has been emitted yet,
otherwise it is appended to the image list of the last emitted message
(creating that list when it is `None`). -/
def user_parts_loop : List OMessage → List UserContentPart → List OMessage
  | acc, [] => acc.reverse
  | acc, .text s :: rest =>
      user_parts_loop ({ role := "user", content := some s } :: acc) rest
  | [], .image b :: rest =>
      user_parts_loop [{ role := "user", images := some [b] }] rest
  | m :: acc, .image b :: rest =>
      user_parts_loop ({ m with images := some ((m.images.getD []) ++ [b]) } :: acc) rest

/-- Source `user_message_to_ollama`: validates the source name, then
translates string content to one user message, and multi-part content via
the part loop.  (The unknown-content-part ValueError branch is unreachable
here because `UserContentPart` is a closed sum.) -/
def user_message_to_ollama (source : String) (content : UserContent) :
    Except String (List OMessage) := do
  let _ ← assert_valid_name source
  match content with
  | .text s => .ok [{ role := "user", content := some s }]
  | .parts ps => .ok (user_parts_loop [] ps)

/-- Source `calculate_vision_tokens`.  Python float division and `int()`
truncation are modelled with exact rationals and the floor (the inputs are
positive, where `int()` coincides with the floor); `math.ceil` of the tile
quotients is the rational ceiling. -/
def calculate_vision_tokens (width height : Nat) (detail : String := "auto") : Nat :=
  let MAX_LONG_EDGE : Nat := 2048
  let BASE_TOKEN_COUNT : Nat := 85
  let TOKENS_PER_TILE : Nat := 170
  let MAX_SHORT_EDGE : Nat := 768
  let TILE_SIZE : Nat := 512
  if detail = "low" then
    BASE_TOKEN_COUNT
  else
    let wh : Nat × Nat :=
      if width > MAX_LONG_EDGE ∨ height > MAX_LONG_EDGE then
        let aspect_ratio : ℚ := (width : ℚ) / (height : ℚ)
        if aspect_ratio > 1 then
          (MAX_LONG_EDGE, (Int.floor ((MAX_LONG_EDGE : ℚ) / aspect_ratio)).toNat)
        else
          ((Int.floor ((MAX_LONG_EDGE : ℚ) * aspect_ratio)).toNat, MAX_LONG_EDGE)
      else
        (width, height)
    let aspect_ratio : ℚ := (wh.1 : ℚ) / (wh.2 : ℚ)
    let wh : Nat × Nat :=
      if wh.1 > MAX_SHORT_EDGE ∧ wh.2 > MAX_SHORT_EDGE then
        if aspect_ratio > 1 then
          ((Int.floor ((MAX_SHORT_EDGE : ℚ) * aspect_ratio)).toNat, MAX_SHORT_EDGE)
        else
          (MAX_SHORT_EDGE, (Int.floor ((MAX_SHORT_EDGE : ℚ) / aspect_ratio)).toNat)
      else
        wh
    let tiles_width : Nat := (Int.ceil ((wh.1 : ℚ) / (TILE_SIZE : ℚ))).toNat
    let tiles_height : Nat := (Int.ceil ((wh.2 : ℚ) / (TILE_SIZE : ℚ))).toNat
    let total_tiles : Nat := tiles_width * tiles_height
    BASE_TOKEN_COUNT + TOKENS_PER_TILE * total_tiles

/-- Generic `FunctionCall` record: identifier, serialized arguments
(`json.dumps` of the backend arguments dictionary, carried opaquely), and
the (normalized) function name. -/
structure FunctionCall where
  id : String
  arguments : String
  name : String
deriving DecidableEq, Repr

/-- Finish reasons of a `CreateResult` (`FinishReasons`, restricted to the
values this adapter produces). -/
inductive FinishReason where
  | stop
  | function_calls
  | unknown
deriving DecidableEq, Repr

/-- Content of a `CreateResult`: text or an ordered tool-call list. -/
inductive Content where
  | text (s : String)
  | tool_calls (cs : List FunctionCall)
deriving DecidableEq, Repr

/-- Generic `CreateResult`: finish reason, content, usage, cache flag,
optional thought text. -/
structure CreateResult where
  finish_reason : FinishReason
  content : Content
  usage : RequestUsage
  cached : Bool
  thought : Option String
deriving DecidableEq, Repr

/-- Source `normalize_stop_reason`: `None` maps to unknown; otherwise the
lower-cased reason is looked up in the known mapping (stop and end_turn
map to stop, tool_calls to function_calls), defaulting to unknown. -/
def normalize_stop_reason (stop_reason : Option String) : FinishReason :=
  match stop_reason with
  | none => .unknown
  | some r =>
      let r := r.toLower
      if r = "stop" then .stop
      else if r = "end_turn" then .stop
      else if r = "tool_calls" then .function_calls
      else .unknown

/-- The message part of a backend `ChatResponse` chunk: optional text
content and optional tool-call fragments. -/
structure ChunkMessage where
  content : Option String := none
  tool_calls : Option (List OToolCall) := none
deriving DecidableEq, Repr

/-- A backend `ChatResponse` (one streamed chunk, or the single
non-streaming response): message, done flag, done reason, and the
optional evaluation counts. -/
structure ChatResponse where
  model : String := ""
  message : ChunkMessage := {}
  done : Bool := false
  done_reason : Option String := none
  prompt_eval_count : Option Nat := none
  eval_count : Option Nat := none
deriving DecidableEq, Repr

/-- Per-call accumulation state of the `create_stream` chunk loop. -/
structure StreamLoopState where
  stop_reason : Option String
  content_chunks : List String
  full_tool_calls : List FunctionCall
  yielded : List String
deriving DecidableEq, Repr

/-- One iteration of the `create_stream` chunk loop: first-writer-wins
capture of `done_reason` on a done chunk; every non-`None` content
fragment is accumulated (and yielded when non-empty); tool-call fragments
are converted to `FunctionCall`s — all stamped with the current client
tool-id counter and with normalized names — and accumulated. -/
def stream_step (tool_id : Nat) (st : StreamLoopState) (chunk : ChatResponse) :
    StreamLoopState :=
  let stop_reason :=
    if chunk.done ∧ st.stop_reason = none then chunk.done_reason else st.stop_reason
  let content_chunks :=
    match chunk.message.content with
    | none => st.content_chunks
    | some c => st.content_chunks ++ [c]
  let yielded :=
    match chunk.message.content with
    | none => st.yielded
    | some c => if c.length > 0 then st.yielded ++ [c] else st.yielded
  let full_tool_calls :=
    match chunk.message.tool_calls with
    | none => st.full_tool_calls
    | some tcs =>
        st.full_tool_calls ++ tcs.map (fun x =>
          { id := toString tool_id, arguments := x.arguments,
            name := normalize_name x.name })
  { stop_reason := stop_reason, content_chunks := content_chunks,
    full_tool_calls := full_tool_calls, yielded := yielded }

/-- The whole `create_stream` chunk loop over a finite chunk sequence. -/
def stream_loop (tool_id : Nat) (chunks : List ChatResponse) : StreamLoopState :=
  chunks.foldl (stream_step tool_id)
    { stop_reason := none, content_chunks := [], full_tool_calls := [], yielded := [] }

/-- Python truthiness of an optional count (`if chunk and
chunk.prompt_eval_count:`): the count when present and non-zero, else 0. -/
def count_if_truthy (c : Option Nat) : Nat :=
  match c with
  | some n => if n = 0 then 0 else n
  | none => 0

/-- Post-loop aggregation of `create_stream`: prompt tokens from the last
chunk; then the three-way branch — text and tool calls accumulated: the
tool calls become the content, the joined text the thought, completion
tokens from the last chunk; more than one text fragment: joined text is
the content, completion tokens from the last chunk; otherwise: the
(possibly empty) tool-call list is the content and completion tokens stay
at their initial value 0.  Returns the final result and the list of text
fragments yielded during the loop. -/
def create_stream_aggregate (tool_id : Nat) (chunks : List ChatResponse) :
    CreateResult × List String :=
  let st := stream_loop tool_id chunks
  let lastChunk := chunks.getLast?
  let prompt_tokens :=
    match lastChunk with
    | some ch => count_if_truthy ch.prompt_eval_count
    | none => 0
  let last_eval :=
    match lastChunk with
    | some ch => count_if_truthy ch.eval_count
    | none => 0
  let branch : Content × Option String × Nat :=
    if st.content_chunks.length > 0 ∧ st.full_tool_calls.length > 0 then
      (Content.tool_calls st.full_tool_calls, some (String.join st.content_chunks), last_eval)
    else if st.content_chunks.length > 1 then
      (Content.text (String.join st.content_chunks), none, last_eval)
    else
      (Content.tool_calls st.full_tool_calls, none, 0)
  ({ finish_reason := normalize_stop_reason st.stop_reason,
     content := branch.1,
     usage := { prompt_tokens := prompt_tokens, completion_tokens := branch.2.2 },
     cached := false,
     thought := branch.2.1 }, st.yielded)

/-- Response translation of the non-streaming `create` (after the backend
call): when the response carries tool calls, the content is the converted
tool-call list — every call stamped with the current tool-id string and a
normalized name — non-empty text becomes the thought, the finish reason is
forced to tool_calls, and the counter advances by one; otherwise the
content is the raw text (empty when absent) and the backend done reason
(or the empty string) is normalized.  Usage comes from the response
counts, absent counts as zero.  Returns the result and the new tool-id
counter. -/
def create_translate (tool_id : Nat) (result : ChatResponse) : CreateResult × Nat :=
  let usage : RequestUsage :=
    { prompt_tokens := result.prompt_eval_count.getD 0,
      completion_tokens := result.eval_count.getD 0 }
  match result.message.tool_calls with
  | some tcs =>
      let thought : Option String :=
        match result.message.content with
        | some c => if c ≠ "" then some c else none
        | none => none
      let content := Content.tool_calls (tcs.map (fun x =>
        { id := toString tool_id, arguments := x.arguments,
          name := normalize_name x.name }))
      ({ finish_reason := normalize_stop_reason (some "tool_calls"),
         content := content, usage := usage, cached := false,
         thought := thought }, tool_id + 1)
  | none =>
      ({ finish_reason := normalize_stop_reason (some (result.done_reason.getD "")),
         content := Content.text (result.message.content.getD ""),
         usage := usage, cached := false, thought := none }, tool_id)

/-- Client instance state owned across calls: the two usage totals and the
tool-id counter, as set up in `__init__`. -/
structure ClientState where
  total_usage : RequestUsage
  actual_usage : RequestUsage
  tool_id : Nat
deriving DecidableEq, Repr

/-- Initial client state (`__init__`): both totals zero, counter zero. -/
def initState : ClientState :=
  { total_usage := { prompt_tokens := 0, completion_tokens := 0 },
    actual_usage := { prompt_tokens := 0, completion_tokens := 0 },
    tool_id := 0 }

/-- A successful non-streaming `create` call: translate the backend
response, then add the call usage to both running totals; the tool-id
counter advances as dictated by the translation. -/
def create_run (s : ClientState) (resp : ChatResponse) : CreateResult × ClientState :=
  let r := create_translate s.tool_id resp
  (r.1, { total_usage := add_usage s.total_usage r.1.usage,
          actual_usage := add_usage s.actual_usage r.1.usage,
          tool_id := r.2 })

/-- A successful streaming `create_stream` call: aggregate the consumed
chunks, then add the aggregated usage to both running totals.  The source
never increments the tool-id counter on this path, so it is carried over
unchanged. -/
def create_stream_run (s : ClientState) (chunks : List ChatResponse) :
    CreateResult × List String × ClientState :=
  let r := create_stream_aggregate s.tool_id chunks
  (r.1, r.2, { total_usage := add_usage s.total_usage r.1.usage,
               actual_usage := add_usage s.actual_usage r.1.usage,
               tool_id := s.tool_id })

/-- Observable outcome of one call against the client state: a successful
`create` with its backend response, a successful `create_stream` with its
consumed chunk sequence, or a failure at any point before the success
bookkeeping (which touches no state). -/
inductive CallEvent where
  | createOk (resp : ChatResponse)
  | streamOk (chunks : List ChatResponse)
  | failed
deriving DecidableEq, Repr

/-- Effect of one call outcome on the client state. -/
def step_call (s : ClientState) : CallEvent → ClientState
  | .createOk resp => (create_run s resp).2
  | .streamOk chunks => (create_stream_run s chunks).2.2
  | .failed => s

/-- A sequence of calls against the client state. -/
def run_calls (s : ClientState) (evs : List CallEvent) : ClientState :=
  evs.foldl step_call s

/-- Usage of the call behind a call event (zero for a failed call, which
adds nothing). -/
def event_usage (s : ClientState) : CallEvent → RequestUsage
  | .createOk resp => (create_run s resp).1.usage
  | .streamOk chunks => (create_stream_run s chunks).1.usage
  | .failed => { prompt_tokens := 0, completion_tokens := 0 }

/-- The `json_output` call argument, when given: a boolean, or a Pydantic
model class carried as the JSON schema it produces (the remaining
`TypeError`-raising case is excluded by this closed type). -/
inductive JsonOutputArg where
  | asBool (b : Bool)
  | asSchema (s : String)
deriving DecidableEq, Repr

/-- A resolved response-format directive (`response_format_value`): JSON
mode, a JSON schema, or a raw request-level format value passed through. -/
inductive FormatValue where
  | json
  | schema (s : String)
  | raw (v : String)
deriving DecidableEq, Repr

/-- The response-format resolution of `_process_create_args`, in source
order.  `response_format` is the legacy create-arg (already restricted to
a schema-producing model class, carried as its schema; a non-class value
raises and is excluded by typing).  Step one turns it into the running
directive.  Step two folds in `json_output`: `True` requires model JSON
support and overwrites the directive with JSON mode, `False` clears it, a
model class conflicts with a present legacy directive, else becomes a
schema directive.  Step three folds in a request-level `format`
create-arg: it conflicts with any non-`None` `json_output`, the source
then asserts the running directive is `None` (an `AssertionError` when the
legacy directive survived), else the format value is passed through. -/
def process_format (model_json_output : Bool) (response_format : Option String)
    (json_output : Option JsonOutputArg) (format : Option String) :
    Except String (Option FormatValue) :=
  let rfv0 : Option FormatValue := response_format.map FormatValue.schema
  let step2 : Except String (Option FormatValue) :=
    match json_output with
    | none => .ok rfv0
    | some (.asBool true) =>
        if model_json_output = false then
          .error "Model does not support JSON output."
        else
          .ok (some .json)
    | some (.asBool false) => .ok none
    | some (.asSchema s) =>
        if rfv0.isSome then
          .error "response_format and json_output cannot be set to a Pydantic model class at the same time. Use json_output instead."
        else
          .ok (some (.schema s))
  match step2 with
  | .error e => .error e
  | .ok rfv1 =>
      match format with
      | none => .ok rfv1
      | some f =>
          if json_output.isSome then
            .error "json_output and format cannot be set at the same time. Use json_output instead."
          else if rfv1.isSome then
            .error "AssertionError: response_format_value is not None"
          else
            .ok (some (.raw f))

/-- A property of a generic tool parameter schema, keeping the fields the
converter reads: the `type` field, the list of `type` fields of the
`anyOf` alternatives (each itself optional), and the description. -/
structure PropSchema where
  type : Option String := none
  anyOf : Option (List (Option String)) := none
  description : Option String := none
deriving DecidableEq, Repr

/-- The `parameters` object of a generic tool schema. -/
structure ParamSchema where
  properties : List (String × PropSchema) := []
  required : Option (List String) := none
deriving DecidableEq, Repr

/-- A generic tool schema: name, optional description, optional
parameters. -/
structure ToolSchema where
  name : String
  description : Option String := none
  parameters : Option ParamSchema := none
deriving DecidableEq, Repr

/-- A converted backend tool property: only `type` and `description`
survive. -/
structure OllamaProperty where
  type : String
  description : Option String
deriving DecidableEq, Repr

/-- Converted backend tool parameters. -/
structure OllamaToolParams where
  required : Option (List String)
  properties : Option (List (String × OllamaProperty))
deriving DecidableEq, Repr

/-- Converted backend tool function: name, description (empty string when
absent), parameters. -/
structure OllamaFunction where
  name : String
  description : String
  parameters : OllamaToolParams
deriving DecidableEq, Repr

/-- Converted backend tool. -/
structure OllamaTool where
  function : OllamaFunction
deriving DecidableEq, Repr

/-- Property-type resolution of `convert_tools`: the explicit `type` field
when present, else the first `anyOf` alternative type that is not the
string null (an alternative without a `type` field contributes `None` and
still passes that filter), and finally the Python `or`-default to string
(which also replaces an empty-string type, `""` being falsy). -/
def resolve_prop_type (p : PropSchema) : String :=
  let prop_type : Option String :=
    match p.type with
    | some t => some t
    | none =>
        match p.anyOf with
        | some alts => ((alts.filter (fun o => o ≠ some "null")).head?).getD none
        | none => none
  match prop_type with
  | some t => if t = "" then "string" else t
  | none => "string"

/-- Conversion of one tool schema (the loop body of `convert_tools`). -/
def convert_tool (t : ToolSchema) : OllamaTool :=
  let props : Option (List (String × OllamaProperty)) :=
    match t.parameters with
    | none => none
    | some ps => some (ps.properties.map (fun np =>
        (np.1, { type := resolve_prop_type np.2, description := np.2.description })))
  { function :=
    { name := t.name,
      description := t.description.getD "",
      parameters :=
      { required :=
          match t.parameters with
          | none => none
          | some ps => ps.required,
        properties := props } } }

/-- Source `convert_tools`: convert every tool, then validate every
converted name (a single invalid name fails the whole conversion). -/
def convert_tools (tools : List ToolSchema) : Except String (List OllamaTool) := do
  let result := tools.map convert_tool
  let _ ← result.mapM (fun tp => assert_valid_name tp.function.name)
  .ok result

/-- Content of a generic Assistant message: text or tool-call requests. -/
inductive AssistantContent where
  | text (s : String)
  | calls (cs : List FunctionCall)
deriving DecidableEq, Repr

/-- A generic conversation message (`LLMMessage`): System, User,
Assistant, or a tool-result message carrying one text per result item. -/
inductive LLMMessage where
  | system (content : String)
  | user (source : String) (content : UserContent)
  | assistant (source : String) (content : AssistantContent)
  | toolResult (results : List String)
deriving DecidableEq, Repr

/-- Source `assistant_message_to_ollama`: validates the source name; list
content becomes a single assistant message holding backend tool-call
records (`json.loads` of the serialized arguments is carried opaquely),
text content a single assistant text message. -/
def assistant_message_to_ollama (source : String) (content : AssistantContent) :
    Except String OMessage := do
  let _ ← assert_valid_name source
  match content with
  | .calls cs =>
      .ok { role := "assistant",
            tool_calls := some (cs.map (fun x => { name := x.name, arguments := x.arguments })) }
  | .text s => .ok { role := "assistant", content := some s }

/-- Source `to_ollama_type`: dispatch over the message variants.  System
and tool-result messages translate without validation; User and Assistant
messages validate their source names. -/
def to_ollama_type (message : LLMMessage) : Except String (List OMessage) :=
  match message with
  | .system content => .ok [{ role := "system", content := some content }]
  | .user source content => user_message_to_ollama source content
  | .assistant source content => do
      let m ← assistant_message_to_ollama source content
      .ok [m]
  | .toolResult results =>
      .ok (results.map (fun x => { role := "tool", content := some x }))

/-- Static model capability flags read by the request builder. -/
structure ModelInfo where
  vision : Bool
  json_output : Bool
  function_calling : Bool
deriving DecidableEq, Repr

/-- The `tool_choice` call argument. -/
inductive ToolChoice where
  | auto
  | required
  | noTools
  | tool (t : ToolSchema)
deriving DecidableEq, Repr

/-- Whether a message makes the vision precondition fire: a User message
with multi-part content containing an image. -/
def message_has_image (m : LLMMessage) : Bool :=
  match m with
  | .user _ (.parts ps) =>
      ps.any (fun p => match p with | .image _ => true | _ => false)
  | _ => false

/-- The built request descriptor (`CreateParams`), restricted to the
fields the claims concern: translated messages, converted tools, resolved
format directive. -/
structure BuiltParams where
  messages : List OMessage
  tools : List OllamaTool
  format : Option FormatValue
deriving DecidableEq, Repr

/-- Source `_process_create_args`, with the create-args merge represented
by its already-extracted `response_format` and `format` entries: resolve
the response-format directive, check the vision precondition, re-check
JSON support (redundantly, as the source does inside `process_format`
already), translate all messages, check the function-calling precondition,
then resolve `tool_choice` — a specific tool converts alone, `none` sends
no tools, `required` converts all and fails when the converted list is
empty, `auto` converts all.  Every failure happens before any backend
call. -/
def process_create_args (info : ModelInfo) (messages : List LLMMessage)
    (tools : List ToolSchema) (tool_choice : ToolChoice)
    (response_format : Option String) (json_output : Option JsonOutputArg)
    (format : Option String) : Except String BuiltParams := do
  let fmt ← process_format info.json_output response_format json_output format
  if info.vision = false ∧ messages.any message_has_image then
    .error "Model does not support vision and image was provided"
  else if info.json_output = false ∧ json_output = some (.asBool true) then
    .error "Model does not support JSON output."
  else do
    let nested ← messages.mapM to_ollama_type
    let ollama_messages := nested.flatten
    if info.function_calling = false ∧ tools.length > 0 then
      .error "Model does not support function calling and tools were provided"
    else do
      let converted_tools ←
        match tool_choice with
        | .tool t => convert_tools [t]
        | .noTools => .ok []
        | .required => do
            let ct ← convert_tools tools
            if ct.length = 0 then
              .error "tool_choice required specified but no tools provided"
            else
              .ok ct
        | .auto => convert_tools tools
      .ok { messages := ollama_messages, tools := converted_tools, format := fmt }

/-- Identifiers carried by a result content: none for text, the tool-call
ids for a tool-call list. -/
def content_ids (c : Content) : List String :=
  match c with
  | .text _ => []
  | .tool_calls cs => cs.map FunctionCall.id

/-- A chunk carrying only the text fragment hi, used as concrete input. -/
def textOnlyChunk : ChatResponse :=
  { message := { content := some "hi" } }

/-- A final chunk carrying the text hi, a stop reason, and both
evaluation counts, used as concrete input. -/
def countedChunk : ChatResponse :=
  { message := { content := some "hi" }
    done := true
    done_reason := some "stop"
    prompt_eval_count := some 3
    eval_count := some 7 }

/-- Sanitizing a character always lands in the name character class. -/
lemma is_name_char_sanitized (c : Char) :
    is_name_char (if is_name_char c then c else '_') = true := by
  by_cases h : is_name_char c
  · simp [h]
  · simp [h]; decide

/-- Sanitizing a list of characters that are already in the class is the
identity. -/
lemma map_sanitize_id (l : List Char) (h : ∀ c ∈ l, is_name_char c = true) :
    l.map (fun c => if is_name_char c then c else '_') = l := by
  induction l with
  | nil => rfl
  | cons a t ih =>
      simp only [List.map_cons, List.cons.injEq]
      exact ⟨by simp [h a (by simp)], ih (fun c hc => h c (by simp [hc]))⟩

/-- The truthiness guard on an optional count agrees with defaulting the
absent count to zero. -/
lemma count_if_truthy_eq_getD (c : Option Nat) : count_if_truthy c = c.getD 0 := by
  cases c with
  | none => rfl
  | some n => by_cases h : n = 0 <;> simp [count_if_truthy, h]

/-- Every tool call accumulated by the stream loop keeps the id stamp of
the current counter, provided the calls accumulated so far do. -/
lemma stream_loop_ids_aux (t : Nat) (chunks : List ChatResponse) (st : StreamLoopState)
    (h : ((st.full_tool_calls.map FunctionCall.id).all (fun i => i == toString t)) = true) :
    (((chunks.foldl (stream_step t) st).full_tool_calls.map FunctionCall.id).all
      (fun i => i == toString t)) = true := by
  induction chunks generalizing st with
  | nil => simpa using h
  | cons c rest ih =>
      apply ih
      cases hc : c.message.tool_calls with
      | none => simpa [stream_step, hc] using h
      | some tcs =>
          simp only [stream_step, hc, List.map_append, List.all_append, Bool.and_eq_true]
          refine ⟨h, ?_⟩
          simp [List.all_map, Function.comp]

/-- Componentwise order on usages. -/
def usage_le (u v : RequestUsage) : Prop :=
  u.prompt_tokens ≤ v.prompt_tokens ∧ u.completion_tokens ≤ v.completion_tokens

/-- One call step keeps the two running totals equal when they were
equal. -/
lemma step_call_totals_eq (s : ClientState) (ev : CallEvent)
    (h : s.total_usage = s.actual_usage) :
    (step_call s ev).total_usage = (step_call s ev).actual_usage := by
  cases ev <;> simp [step_call, create_run, create_stream_run, h]

/-- Any call sequence keeps the two running totals equal when they start
equal. -/
lemma run_calls_totals_eq (evs : List CallEvent) (s : ClientState)
    (h : s.total_usage = s.actual_usage) :
    (run_calls s evs).total_usage = (run_calls s evs).actual_usage := by
  induction evs generalizing s with
  | nil => simpa [run_calls] using h
  | cons e t ih => exact ih _ (step_call_totals_eq s e h)

/-- One call step never decreases either running total. -/
lemma step_call_mono (s : ClientState) (ev : CallEvent) :
    usage_le s.total_usage (step_call s ev).total_usage ∧
    usage_le s.actual_usage (step_call s ev).actual_usage := by
  cases ev <;>
    simp [step_call, create_run, create_stream_run, usage_le, add_usage, Nat.le_add_right]

/-- A call sequence never decreases either running total. -/
lemma run_calls_mono (evs : List CallEvent) (s : ClientState) :
    usage_le s.total_usage (run_calls s evs).total_usage ∧
    usage_le s.actual_usage (run_calls s evs).actual_usage := by
  induction evs generalizing s with
  | nil => simp [run_calls, usage_le]
  | cons e t ih =>
      have h1 := step_call_mono s e
      have h2 := ih (step_call s e)
      refine ⟨⟨?_, ?_⟩, ⟨?_, ?_⟩⟩ <;>
        first
        | exact le_trans h1.1.1 h2.1.1
        | exact le_trans h1.1.2 h2.1.2
        | exact le_trans h1.2.1 h2.2.1
        | exact le_trans h1.2.2 h2.2.2

/-- A bind whose continuation always fails is never ok. -/
lemma except_bind_isOk_false {α β : Type} (x : Except String α) (g : α → Except String β)
    (h : ∀ a, (g a).isOk = false) : (x >>= g).isOk = false := by
  cases x with
  | error e => rfl
  | ok a => exact h a

/-- The vision-token count of a 4096 by 2048 image with the default
detail: the long-edge cap scales it to 2048 by 1024, both sides still
exceed 768 so the short side is rescaled to 768 giving 1536 by 768, which
tiles into 3 by 2 blocks of 512, for 85 + 170 times 6 tokens. -/
lemma vision_tokens_eval : calculate_vision_tokens 4096 2048 "auto" = 1105 := by
  unfold calculate_vision_tokens
  norm_num
  simp
  norm_num
  simp
  rw [show ⌈(3 : ℚ) / 2⌉ = 2 from by rw [Int.ceil_eq_iff]; norm_num]
  norm_num
  decide

/-- C1: when the consumed chunk sequence of a streaming call accumulates
exactly one text fragment and no tool-call fragments, the final
aggregated result has the empty tool-call list as its content — not the
accumulated text — and the text does not appear as the thought either. -/
theorem C1_single_text_not_content (tool_id : Nat) (chunks : List ChatResponse)
    (h1 : (stream_loop tool_id chunks).content_chunks.length = 1)
    (h2 : (stream_loop tool_id chunks).full_tool_calls = []) :
    (create_stream_aggregate tool_id chunks).1.content = .tool_calls [] ∧
    (create_stream_aggregate tool_id chunks).1.thought = none := by
  unfold create_stream_aggregate
  simp [h1, h2]

/-- Witness for C1: a stream of one chunk with the lone text fragment hi
accumulates exactly one fragment and no tool calls, and indeed aggregates
to the empty tool-call list with no thought. -/
theorem C1_single_text_not_content_witness :
    (create_stream_aggregate 0 [textOnlyChunk]).1.content = .tool_calls [] ∧
    (create_stream_aggregate 0 [textOnlyChunk]).1.thought = none :=
  C1_single_text_not_content 0 [textOnlyChunk] (by decide) (by decide)

/-- C2 counterexample: translating a User message with parts text hello
then image A yields ONE backend message carrying both the text and the
image — not the two messages the claim states. -/
theorem C2_counterexample :
    user_message_to_ollama "user1" (.parts [.text "hello", .image "A"]) =
      .ok [{ role := "user", content := some "hello", images := some ["A"] }] ∧
    user_message_to_ollama "user1" (.parts [.text "hello", .image "A"]) ≠
      .ok [{ role := "user", content := some "hello" },
           { role := "user", images := some ["A"] }] := by
  decide

/-- C2 amended: for every valid source name, a User message with parts
text s then image a translates to exactly one backend message with role
user, content s, and image list containing a — the image is appended to
the image list of the preceding text message rather than starting its own
message. -/
theorem C2_image_appended_to_text_message (src s a : String)
    (h : assert_valid_name src = .ok src) :
    user_message_to_ollama src (.parts [.text s, .image a]) =
      .ok [{ role := "user", content := some s, images := some [a] }] := by
  unfold user_message_to_ollama
  rw [h]
  rfl

/-- Witness for the amended C2 at source user1, text hello, image A. -/
theorem C2_image_appended_to_text_message_witness :
    user_message_to_ollama "user1" (.parts [.text "hello", .image "A"]) =
      .ok [{ role := "user", content := some "hello", images := some ["A"] }] :=
  C2_image_appended_to_text_message "user1" "hello" "A" (by decide)

/-- C3 counterexample: the vision-token estimate for a 4096 by 2048 image
with the default detail hint is not 1445 — after the long-edge cap the
intermediate 2048 by 1024 has BOTH sides above 768, so the short-side
rescale does apply, contrary to the worked example. -/
theorem C3_counterexample : calculate_vision_tokens 4096 2048 "auto" ≠ 1445 := by
  rw [vision_tokens_eval]
  decide

/-- C3 amended: the vision-token estimate for a 4096 by 2048 image with
the default detail hint equals 1105: long-edge scaling to 2048 by 1024,
then — since both sides exceed 768 — short-side scaling to 1536 by 768,
ceiling division into 512-tiles giving 3 times 2 = 6 tiles, and
85 + 170 times 6 = 1105. -/
theorem C3_vision_tokens_4096x2048 : calculate_vision_tokens 4096 2048 "auto" = 1105 :=
  vision_tokens_eval

/-- C4 counterexample: setting the legacy response_format (a
schema-producing class) together with json_output = true does NOT fail —
the boolean json_output silently overwrites the legacy directive and the
call resolves to JSON mode, so the three directives are not pairwise
mutually exclusive. -/
theorem C4_counterexample :
    process_format true (some "legacySchema") (some (.asBool true)) none =
      .ok (some .json) := by
  decide

/-- C4 amended: json_output together with the request-level format field
always fails; the legacy response_format together with the format field
always fails; the legacy response_format together with a schema-valued
json_output always fails; but the legacy response_format together with a
BOOLEAN json_output does not fail — true resolves to JSON mode (when the
model supports it) and false resolves to no directive, silently
overriding the legacy directive. -/
theorem C4_format_directive_conflicts (m : Bool) (rf : Option String) (s s2 : String)
    (j : JsonOutputArg) (v : String) (f : Option String) :
    (process_format m rf (some j) (some v)).isOk = false ∧
    (process_format m (some s) none (some v)).isOk = false ∧
    (process_format m (some s) (some (.asSchema s2)) f).isOk = false ∧
    process_format true (some s) (some (.asBool true)) none = .ok (some .json) ∧
    process_format m (some s) (some (.asBool false)) none = .ok none := by
  refine ⟨?_, ?_, ?_, rfl, rfl⟩
  · cases j with
    | asBool b =>
        cases b
        · simp [process_format, Except.isOk, Except.toBool]
        · cases m <;> simp [process_format, Except.isOk, Except.toBool]
    | asSchema s3 =>
        cases rf <;> simp [process_format, Except.isOk, Except.toBool]
  · simp [process_format, Except.isOk, Except.toBool]
  · cases f <;> simp [process_format, Except.isOk, Except.toBool]

/-- C5 counterexample: a normally terminating stream of one chunk whose
final chunk reports eval_count 7 (with one text fragment and no tool
calls) aggregates to completion tokens 0, not 7 — the last branch of the
aggregation ignores the reported count. -/
theorem C5_counterexample :
    (create_stream_aggregate 0 [countedChunk]).1.usage =
      { prompt_tokens := 3, completion_tokens := 0 } ∧
    (create_stream_aggregate 0 [countedChunk]).1.usage ≠
      { prompt_tokens := 3, completion_tokens := 7 } := by
  decide

/-- C5 amended: the aggregated prompt tokens always equal the last chunk
prompt_eval_count (zero when absent); the aggregated completion tokens
equal the last chunk eval_count (zero when absent) only in the branches
where tool calls were accumulated together with text, or more than one
text fragment was accumulated — in the remaining branch they are always
zero regardless of the last chunk. -/
theorem C5_stream_usage_accounting (tool_id : Nat) (chunks : List ChatResponse) :
    (create_stream_aggregate tool_id chunks).1.usage.prompt_tokens =
      ((chunks.getLast?).bind ChatResponse.prompt_eval_count).getD 0 ∧
    (create_stream_aggregate tool_id chunks).1.usage.completion_tokens =
      (if ((stream_loop tool_id chunks).content_chunks.length > 0 ∧
            (stream_loop tool_id chunks).full_tool_calls.length > 0) ∨
          (stream_loop tool_id chunks).content_chunks.length > 1 then
        ((chunks.getLast?).bind ChatResponse.eval_count).getD 0
      else 0) := by
  constructor
  · unfold create_stream_aggregate
    cases hl : chunks.getLast? with
    | none => simp [hl]
    | some ch => simp [hl, count_if_truthy_eq_getD]
  · unfold create_stream_aggregate
    by_cases hb1 : (stream_loop tool_id chunks).content_chunks.length > 0 ∧
        (stream_loop tool_id chunks).full_tool_calls.length > 0
    · cases hl : chunks.getLast? with
      | none => simp [hl, hb1]
      | some ch => simp [hl, hb1, count_if_truthy_eq_getD]
    · by_cases hb2 : (stream_loop tool_id chunks).content_chunks.length > 1
      · cases hl : chunks.getLast? with
        | none => simp [hl, hb1, hb2]
        | some ch => simp [hl, hb1, hb2, count_if_truthy_eq_getD]
      · simp [hb1, hb2]

/-- C6: over the client lifetime, both usage totals start at zero; a call
step adds the completed call usage to both totals; a failed call changes
nothing; after any call sequence from the initial state the two totals are
equal; and extending a call sequence never decreases any component of
either total. -/
theorem C6_usage_totals_invariant (evs evs2 : List CallEvent) (s : ClientState)
    (ev : CallEvent) :
    initState.total_usage = { prompt_tokens := 0, completion_tokens := 0 } ∧
    initState.actual_usage = { prompt_tokens := 0, completion_tokens := 0 } ∧
    step_call s .failed = s ∧
    ((step_call s ev).total_usage = add_usage s.total_usage (event_usage s ev) ∧
     (step_call s ev).actual_usage = add_usage s.actual_usage (event_usage s ev)) ∧
    (run_calls initState evs).total_usage = (run_calls initState evs).actual_usage ∧
    (usage_le (run_calls initState evs).total_usage
        (run_calls initState (evs ++ evs2)).total_usage ∧
     usage_le (run_calls initState evs).actual_usage
        (run_calls initState (evs ++ evs2)).actual_usage) := by
  refine ⟨rfl, rfl, rfl, ?_, ?_, ?_⟩
  · cases ev <;>
      simp [step_call, create_run, create_stream_run, event_usage, add_usage]
  · exact run_calls_totals_eq evs initState rfl
  · rw [show run_calls initState (evs ++ evs2) =
        run_calls (run_calls initState evs) evs2 from List.foldl_append ..]
    exact run_calls_mono evs2 (run_calls initState evs)

/-- C7: the code contradicts the claim (and its own error message) at the
input consisting of ab followed by a newline — the Python dollar anchor
also matches just before a trailing newline, so the validator returns the
string unchanged even though it contains a character outside the allowed
class and does not match the specification pattern. -/
theorem C7_trailing_newline_accepted :
    assert_valid_name "ab\n" = .ok "ab\n" ∧
    name_matches_spec_pattern "ab\n" = false := by
  decide

/-- C8: with tool_choice required and an empty supplied tool list,
request building is never ok (whatever the model capabilities, messages
and format directives are), and in the plain configuration it fails with
exactly the no-tools-provided error — while tool_choice auto with an
empty tool list succeeds.  All of this happens inside request building,
before any backend call. -/
theorem C8_tool_choice_required_empty (info : ModelInfo) (messages : List LLMMessage)
    (rf : Option String) (jo : Option JsonOutputArg) (f : Option String) :
    (process_create_args info messages [] .required rf jo f).isOk = false ∧
    process_create_args info [] [] .required none none none =
      .error "tool_choice required specified but no tools provided" ∧
    (process_create_args info [] [] .auto none none none).isOk = true := by
  refine ⟨?_, ?_, ?_⟩
  · unfold process_create_args
    apply except_bind_isOk_false
    intro fmt
    split
    · rfl
    · split
      · rfl
      · apply except_bind_isOk_false
        intro nested
        split
        · rfl
        · rfl
  · obtain ⟨vi, jo2, fc⟩ := info
    cases vi <;> cases jo2 <;> cases fc <;> decide
  · obtain ⟨vi, jo2, fc⟩ := info
    cases vi <;> cases jo2 <;> cases fc <;> decide

/-- C9: every tool-call record translated from one non-streaming response
carries the current counter rendered as a string as its id; the counter
advances by exactly one when the response carries tool calls (member
count notwithstanding) and is unchanged otherwise; in a streaming call
every accumulated tool call likewise carries the current counter as its
id and the counter is never advanced. -/
theorem C9_tool_call_id_counter (t : Nat) (r : ChatResponse)
    (chunks : List ChatResponse) (s : ClientState) :
    ((content_ids (create_translate t r).1.content).all (fun i => i == toString t)) = true ∧
    (create_translate t r).2 = (if r.message.tool_calls.isSome then t + 1 else t) ∧
    (((stream_loop t chunks).full_tool_calls.map FunctionCall.id).all
      (fun i => i == toString t)) = true ∧
    (create_stream_run s chunks).2.2.tool_id = s.tool_id := by
  refine ⟨?_, ?_, ?_, rfl⟩
  · cases hc : r.message.tool_calls with
    | none => simp [create_translate, hc, content_ids]
    | some tcs => simp [create_translate, hc, content_ids, List.all_map, Function.comp]
  · cases hc : r.message.tool_calls with
    | none => simp [create_translate, hc]
    | some tcs => simp [create_translate, hc]
  · exact stream_loop_ids_aux t chunks _ (by simp)

/-- C10: normalize is idempotent on every string, and is the identity on
every string matching the specification pattern of one to sixty-four
class characters. -/
theorem C10_normalize_idempotent_identity (s : String) :
    normalize_name (normalize_name s) = normalize_name s ∧
    (name_matches_spec_pattern s = true → normalize_name s = s) := by
  constructor
  · show String.mk _ = String.mk _
    congr 1
    have h1 : ∀ c ∈ (s.data.map (fun c => if is_name_char c then c else '_')).take 64,
        is_name_char c = true := by
      intro c hc
      obtain ⟨a, _, rfl⟩ := List.mem_map.mp (List.take_subset _ _ hc)
      exact is_name_char_sanitized a
    rw [show (normalize_name s).data =
        (s.data.map (fun c => if is_name_char c then c else '_')).take 64 from rfl]
    rw [map_sanitize_id _ h1]
    apply List.take_of_length_le
    simp [List.length_take]
  · intro h
    unfold name_matches_spec_pattern at h
    simp only [Bool.and_eq_true, decide_eq_true_eq] at h
    obtain ⟨⟨hne, hall⟩, hlen⟩ := h
    obtain ⟨l⟩ := s
    show String.mk _ = String.mk l
    congr 1
    rw [map_sanitize_id l (by simpa using List.all_eq_true.mp hall)]
    exact List.take_of_length_le hlen

/-- Witness for C10 at the valid name tool-1. -/
theorem C10_normalize_idempotent_identity_witness :
    normalize_name (normalize_name "tool-1") = normalize_name "tool-1" ∧
    normalize_name "tool-1" = "tool-1" :=
  ⟨(C10_normalize_idempotent_identity "tool-1").1,
   (C10_normalize_idempotent_identity "tool-1").2 (by decide)⟩

end OllamaClient
